import Mathlib

/-!
Shallow embedding of the gesture-universe real-time hand-gesture pipeline.

Sources embedded here:
  * src/gesture.rs                     (classifier, finger states, motion tracker)
  * src/pipeline/compositor.rs         (adaptive cadence control)
  * src/pipeline/recognizer/mod.rs     (build_gesture_result)
  * src/pipeline/recognizer/ort.rs     (hand tracker, effective-confidence rule)

Modelling conventions:
  * Rust `f32`/`f64` values are modelled as exact rationals.  Decimal literals
    in the source (0.2, 0.55, ...) become the corresponding exact rationals.
  * `Instant` timestamps are rationals (seconds); `Duration` values are
    non-negative rationals; `Instant::duration_since` saturates at zero,
    which `durSince` reproduces.
  * `f32::sqrt` is transcendental; `f32sqrt` below is a computable rational
    approximation (floor of the exact square root).  No theorem in this file
    depends on the numeric value that the square-root returns: it only feeds
    empirically-thresholded comparisons that the claims quantify over.
  * `f32::atan2` (used only to fill the `angle` field of a tracker ROI) is
    modelled by the placeholder `f32atan2`; no claim below inspects the angle
    field, and theorems about ROIs existentially quantify over it.
  * Slice indexing `points[i]` is total in the source only because every
    caller guarantees 21 landmarks; `nth3`/`nth2` use `getD` with a zero
    default, which is never reached on those inputs.
-/

/-- Largest finite f32 value, `f32::MAX = (2 - 2^-23) * 2^127`, exact. -/
def f32MAX : ℚ := 2 ^ 128 - 2 ^ 104

/-- Machine epsilon of f32, `f32::EPSILON = 2^-23`, exact. -/
def f32EPS : ℚ := 1 / 2 ^ 23

/-- The f32 value of pi (`std::f32::consts::PI`), exact. -/
def f32PI : ℚ := 13176795 / 4194304

/-- Computable rational stand-in for `f32::sqrt` (floor of the exact root;
negative inputs, which would give NaN, map to 0).  The theorems in this file
never depend on its precision. -/
def f32sqrt (q : ℚ) : ℚ :=
  if q ≤ 0 then 0 else ((Nat.sqrt (q.num.toNat * q.den) : ℚ) / (q.den : ℚ))

/-- Placeholder for the transcendental `f32::atan2`; it only feeds the ROI
angle field, which no claim below inspects. -/
def f32atan2 (_y _x : ℚ) : ℚ := 0

/-- Rust `f32::clamp(lo, hi)` (for `lo ≤ hi`). -/
def clampQ (x lo hi : ℚ) : ℚ := min (max x lo) hi

/-- `Instant::duration_since`: saturating subtraction of timestamps. -/
def durSince (now earlier : ℚ) : ℚ := max (now - earlier) 0

/-- A raw 3-D landmark `[f32; 3]`. -/
abbrev P3 : Type := ℚ × ℚ × ℚ

/-- A projected 2-D landmark `(f32, f32)`. -/
abbrev P2 : Type := ℚ × ℚ

/-- Total slice access for 3-D landmark slices (`points[i]` in the source;
in-bounds for every 21-point input the callers supply). -/
def nth3 (points : List P3) (i : ℕ) : P3 := points.getD i (0, 0, 0)

/-- Total slice access for 2-D landmark slices. -/
def nth2 (points : List P2) (i : ℕ) : P2 := points.getD i (0, 0)

/-- `types.rs`: enum Handedness. -/
inductive Handedness where
  | Left
  | Right
  | Unknown
deriving DecidableEq, Repr

/-- `types.rs`: enum FingerState. -/
inductive FingerState where
  | Extended
  | HalfBent
  | Folded
deriving DecidableEq, Repr

/-- `types.rs`: enum GestureKind. -/
inductive GestureKind where
  | OpenPalm
  | Fist
  | Point
  | Victory
  | Three
  | Four
  | ThumbUp
  | ThumbDown
  | Ok
  | Pinch
  | FingerHeart
  | ILoveYou
  | Rock
  | Unknown
deriving DecidableEq, Repr

/-- `types.rs`: enum GestureMotion. -/
inductive GestureMotion where
  | Steady
  | Fanning
  | VerticalWave
  | Moving
deriving DecidableEq, Repr

/-- `types.rs`: GestureKind::display_name. -/
def GestureKind.display_name : GestureKind → String
  | .OpenPalm => "张开手掌"
  | .Fist => "握拳"
  | .Point => "指向"
  | .Victory => "剪刀手"
  | .Three => "三指"
  | .Four => "四指"
  | .ThumbUp => "大拇指向上"
  | .ThumbDown => "大拇指向下"
  | .Ok => "OK"
  | .Pinch => "捏合 / kneading"
  | .FingerHeart => "比心"
  | .ILoveYou => "I ❤️ U"
  | .Rock => "摇滚"
  | .Unknown => "未知手势"

/-- `types.rs`: GestureKind::emoji. -/
def GestureKind.emoji : GestureKind → String
  | .OpenPalm => "🖐 "
  | .Fist => "✊ "
  | .Point => "👉 "
  | .Victory => "✌️ "
  | .Three => "🤟 "
  | .Four => "🖖 "
  | .ThumbUp => "👍 "
  | .ThumbDown => "👎 "
  | .Ok => "👌 "
  | .Pinch => "🤏 "
  | .FingerHeart => "🫰 "
  | .ILoveYou => "🤟 "
  | .Rock => "🤘 "
  | .Unknown => "⋯ "

/-- `gesture.rs`: fn sub (componentwise difference of 3-vectors). -/
def sub (a b : P3) : P3 := (a.1 - b.1, a.2.1 - b.2.1, a.2.2 - b.2.2)

/-- `gesture.rs`: fn dot. -/
def dot (a b : P3) : ℚ := a.1 * b.1 + a.2.1 * b.2.1 + a.2.2 * b.2.2

/-- `gesture.rs`: fn normalize (source name `normalize`, which Mathlib
already takes). -/
def normalize3 (v : P3) : P3 :=
  let len := f32sqrt (v.1 * v.1 + v.2.1 * v.2.1 + v.2.2 * v.2.2)
  if len < 0.00001 then (0, 0, 0) else (v.1 / len, v.2.1 / len, v.2.2 / len)

/-- `gesture.rs`: fn distance3. -/
def distance3 (a b : P3) : ℚ :=
  f32sqrt ((a.1 - b.1) ^ 2 + (a.2.1 - b.2.1) ^ 2 + (a.2.2 - b.2.2) ^ 2)

/-- `gesture.rs`: fn average_straightness. -/
def average_straightness (a b c : P3) : ℚ :=
  let ab := dot (normalize3 a) (normalize3 b)
  let bc := dot (normalize3 b) (normalize3 c)
  clampQ ((ab + bc) / 2) (-1) 1

/-- `gesture.rs`: fn normalize_landmarks.  The bounding-box fold starts from
the `f32::MAX`/`f32::MIN` sentinels exactly as the source loop does. -/
def normalize_landmarks (points : List P3) : List P3 × ℚ :=
  let bb := points.foldl
    (fun acc p =>
      (min acc.1 p.1, max acc.2.1 p.1, min acc.2.2.1 p.2.1, max acc.2.2.2 p.2.1))
    (f32MAX, -f32MAX, f32MAX, -f32MAX)
  let span := max (max (bb.2.1 - bb.1) (bb.2.2.2 - bb.2.2.1)) 0.001
  (points.map (fun p => ((p.1 - bb.1) / span, (p.2.1 - bb.2.2.1) / span, p.2.2 / span)),
   span)

/-- `gesture.rs`: fn projected_span. -/
def projected_span (points : List P2) : ℚ :=
  let bb := points.foldl
    (fun acc p =>
      (min acc.1 p.1, max acc.2.1 p.1, min acc.2.2.1 p.2, max acc.2.2.2 p.2))
    (f32MAX, -f32MAX, f32MAX, -f32MAX)
  max (max (bb.2.1 - bb.1) (bb.2.2.2 - bb.2.2.1)) 1

/-- `gesture.rs`: fn classify_finger (the `idx: [usize; 4]` array is passed
as four indices). -/
def classify_finger (points : List P3) (i0 i1 i2 i3 : ℕ) : FingerState :=
  let wrist := nth3 points 0
  let mcp := nth3 points i0
  let pip := nth3 points i1
  let dip := nth3 points i2
  let tip := nth3 points i3
  let dist_tip := distance3 tip wrist
  let dist_pip := distance3 pip wrist
  let dist_mcp := distance3 mcp wrist
  let straightness := average_straightness (sub pip mcp) (sub dip pip) (sub tip dip)
  let extension := dist_tip - dist_pip
  let reach := dist_tip - dist_mcp
  if extension > 0.18 ∧ straightness > 0.45 ∧ reach > 0.08 then FingerState.Extended
  else if extension < 0.08 ∨ straightness < 0.18 ∨ reach < 0.05 then FingerState.Folded
  else FingerState.HalfBent

/-- `gesture.rs`: fn classify_thumb (the source passes `sub(tip, ip)` twice
to `average_straightness`; reproduced verbatim). -/
def classify_thumb (points : List P3) : FingerState :=
  let wrist := nth3 points 0
  let mcp := nth3 points 1
  let ip := nth3 points 2
  let tip := nth3 points 4
  let index_mcp := nth3 points 5
  let pinky_mcp := nth3 points 17
  let dist_tip_wrist := distance3 tip wrist
  let dist_tip_index := distance3 tip index_mcp
  let dist_tip_pinky := distance3 tip pinky_mcp
  let straightness := average_straightness (sub ip mcp) (sub tip ip) (sub tip ip)
  let spread := min dist_tip_index dist_tip_pinky
  if spread < 0.16 ∧ straightness < 0.25 then FingerState.Folded
  else if dist_tip_wrist > 0.35 ∧ straightness > 0.35 then FingerState.Extended
  else FingerState.HalfBent

/-- Number of `Extended` entries of the finger-state array
(`finger_states.iter().filter(...).count()` in `detect_primary_gesture`). -/
def extended_count (fs : Fin 5 → FingerState) : ℕ :=
  (List.ofFn fs).countP (fun s => decide (s = FingerState.Extended))

/-- Number of `Folded` entries of the finger-state array. -/
def folded_count (fs : Fin 5 → FingerState) : ℕ :=
  (List.ofFn fs).countP (fun s => decide (s = FingerState.Folded))

/-- `detect_primary_gesture` local: `thumb_index_gap`. -/
def thumb_index_gap (points : List P3) : ℚ := distance3 (nth3 points 4) (nth3 points 8)

/-- `detect_primary_gesture` local: `thumb_middle_gap`. -/
def thumb_middle_gap (points : List P3) : ℚ := distance3 (nth3 points 4) (nth3 points 12)

/-- `detect_primary_gesture` predicate: `finger_heart`. -/
def finger_heart (points : List P3) (fs : Fin 5 → FingerState) : Bool :=
  decide (thumb_index_gap points < 0.08) &&
  decide (3 ≤ folded_count fs) &&
  (match fs 1 with | .HalfBent => true | .Folded => true | _ => false) &&
  (match fs 0 with | .HalfBent => true | .Folded => true | _ => false) &&
  decide (|(nth3 points 4).2.1 - (nth3 points 8).2.1| < 0.08)

/-- `detect_primary_gesture` predicate: `pinch_with_index`. -/
def pinch_with_index (points : List P3) (fs : Fin 5 → FingerState) : Bool :=
  decide (thumb_index_gap points < 0.12) &&
  (match fs 2 with | .Folded => true | .HalfBent => true | _ => false) &&
  (match fs 3 with | .Folded => true | .HalfBent => true | _ => false) &&
  (match fs 4 with | .Folded => true | .HalfBent => true | _ => false)

/-- `detect_primary_gesture` predicate: `pinch_with_middle`. -/
def pinch_with_middle (points : List P3) (fs : Fin 5 → FingerState) : Bool :=
  decide (thumb_middle_gap points < 0.12) &&
  (match fs 1 with | .Folded => true | .HalfBent => true | _ => false) &&
  (match fs 3 with | .Folded => true | .HalfBent => true | _ => false) &&
  (match fs 4 with | .Folded => true | .HalfBent => true | _ => false)

/-- `detect_primary_gesture` predicate: `pinch_like`. -/
def pinch_like (points : List P3) (fs : Fin 5 → FingerState) : Bool :=
  pinch_with_index points fs || pinch_with_middle points fs

/-- `detect_primary_gesture` predicate: `ok_like`. -/
def ok_like (points : List P3) (fs : Fin 5 → FingerState) : Bool :=
  decide (thumb_index_gap points < 0.18) &&
  (decide (fs 2 = FingerState.Extended) || decide (fs 3 = FingerState.Extended))

/-- `detect_primary_gesture` predicate: `ilove`. -/
def ilove (fs : Fin 5 → FingerState) : Bool :=
  (match fs 0 with | .Extended => true | .HalfBent => true | _ => false) &&
  decide (fs 1 = FingerState.Extended) &&
  decide (fs 2 ≠ FingerState.Extended) &&
  decide (fs 3 ≠ FingerState.Extended) &&
  decide (fs 4 = FingerState.Extended)

/-- `detect_primary_gesture` predicate: `rock`. -/
def rock (fs : Fin 5 → FingerState) : Bool :=
  decide (fs 1 = FingerState.Extended) &&
  decide (fs 4 = FingerState.Extended) &&
  decide (fs 2 ≠ FingerState.Extended) &&
  decide (fs 3 ≠ FingerState.Extended) &&
  decide (fs 0 = FingerState.Folded)

/-- `detect_primary_gesture` predicate: `victory`. -/
def victory (fs : Fin 5 → FingerState) : Bool :=
  decide (fs 1 = FingerState.Extended) &&
  decide (fs 2 = FingerState.Extended) &&
  decide (fs 3 ≠ FingerState.Extended) &&
  decide (fs 4 ≠ FingerState.Extended)

/-- `detect_primary_gesture` predicate: `point`. -/
def point (fs : Fin 5 → FingerState) : Bool :=
  decide (fs 1 = FingerState.Extended) &&
  decide (fs 2 ≠ FingerState.Extended) &&
  decide (fs 3 ≠ FingerState.Extended) &&
  decide (fs 4 ≠ FingerState.Extended)

/-- `detect_primary_gesture` predicate: `three`. -/
def three (fs : Fin 5 → FingerState) : Bool :=
  decide (fs 1 = FingerState.Extended) &&
  decide (fs 2 = FingerState.Extended) &&
  decide (fs 3 = FingerState.Extended) &&
  decide (fs 4 ≠ FingerState.Extended)

/-- `detect_primary_gesture` predicate: `four`. -/
def four (fs : Fin 5 → FingerState) : Bool :=
  decide (4 ≤ extended_count fs) && decide (fs 0 ≠ FingerState.Extended)

/-- `detect_primary_gesture` predicate: `fist`. -/
def fist (fs : Fin 5 → FingerState) : Bool := decide (4 ≤ folded_count fs)

/-- `detect_primary_gesture` predicate: `open_palm`. -/
def open_palm (fs : Fin 5 → FingerState) : Bool := decide (4 ≤ extended_count fs)

/-- `detect_primary_gesture` predicate: `thumb_up` (y grows downward, so an
up-pointing thumb tip sits strictly more than 0.08 above the wrist). -/
def thumb_up (points : List P3) (fs : Fin 5 → FingerState) : Bool :=
  decide (fs 0 = FingerState.Extended) &&
  decide (3 ≤ folded_count fs) &&
  decide ((nth3 points 4).2.1 + 0.08 < (nth3 points 0).2.1)

/-- `detect_primary_gesture` predicate: `thumb_down`. -/
def thumb_down (points : List P3) (fs : Fin 5 → FingerState) : Bool :=
  decide (fs 0 = FingerState.Extended) &&
  decide (3 ≤ folded_count fs) &&
  decide ((nth3 points 4).2.1 > (nth3 points 0).2.1 + 0.08)

/-- `gesture.rs`: fn detect_primary_gesture — the exact if-chain of the
source, with each local predicate hoisted to a named definition above. -/
def detect_primary_gesture (points : List P3) (fs : Fin 5 → FingerState) : GestureKind :=
  if finger_heart points fs then GestureKind.FingerHeart
  else if pinch_like points fs then GestureKind.Pinch
  else if ok_like points fs then GestureKind.Ok
  else if ilove fs then GestureKind.ILoveYou
  else if rock fs then GestureKind.Rock
  else if victory fs then GestureKind.Victory
  else if point fs then GestureKind.Point
  else if thumb_up points fs then GestureKind.ThumbUp
  else if thumb_down points fs then GestureKind.ThumbDown
  else if fist fs then GestureKind.Fist
  else if four fs then GestureKind.Four
  else if open_palm fs then GestureKind.OpenPalm
  else if three fs then GestureKind.Three
  else GestureKind.Unknown

/-- Specification-side fixed priority table for the primary gesture, in the
order the spec states: finger-heart > pinch > ok-like > I-love-you > rock >
victory > point > thumb-up > thumb-down > fist > four > open-palm > three. -/
def priorityTable (points : List P3) (fs : Fin 5 → FingerState) :
    List (Bool × GestureKind) :=
  [(finger_heart points fs, GestureKind.FingerHeart),
   (pinch_like points fs, GestureKind.Pinch),
   (ok_like points fs, GestureKind.Ok),
   (ilove fs, GestureKind.ILoveYou),
   (rock fs, GestureKind.Rock),
   (victory fs, GestureKind.Victory),
   (point fs, GestureKind.Point),
   (thumb_up points fs, GestureKind.ThumbUp),
   (thumb_down points fs, GestureKind.ThumbDown),
   (fist fs, GestureKind.Fist),
   (four fs, GestureKind.Four),
   (open_palm fs, GestureKind.OpenPalm),
   (three fs, GestureKind.Three)]

/-- Specification-side selector: the gesture of the first true predicate,
`Unknown` when none is true. -/
def firstTrue : List (Bool × GestureKind) → GestureKind
  | [] => GestureKind.Unknown
  | (b, g) :: rest => if b then g else firstTrue rest

/-- `gesture.rs`: fn handedness_from_score. -/
def handedness_from_score (score : ℚ) : Handedness :=
  if score ≥ 0.5 then Handedness.Right
  else if score > 0 then Handedness.Left
  else Handedness.Unknown

/-- `gesture.rs`: fn detect_secondary. -/
def detect_secondary (fs : Fin 5 → FingerState) (points : List P3)
    (primary : GestureKind) : Option GestureKind :=
  if primary ≠ GestureKind.Unknown then none
  else if 4 ≤ extended_count fs then some GestureKind.OpenPalm
  else if 4 ≤ folded_count fs then some GestureKind.Fist
  else if min (distance3 (nth3 points 4) (nth3 points 8))
            (distance3 (nth3 points 4) (nth3 points 12)) < 0.14 then
    some GestureKind.Pinch
  else none

/-- `gesture.rs`: const MIN_CONFIDENCE. -/
def MIN_CONFIDENCE : ℚ := 0.2

/-- `gesture.rs`: const MOTION_WINDOW (1.2 seconds). -/
def MOTION_WINDOW : ℚ := 1.2

/-- `gesture.rs`: struct MotionSample. -/
structure MotionSample where
  time : ℚ
  x : ℚ
  y : ℚ
  span : ℚ
deriving DecidableEq, Repr

/-- The `matches!(primary, OpenPalm | Four | Unknown)` test of
`MotionTracker::update`. -/
def is_open_palm_kind : GestureKind → Bool
  | .OpenPalm => true
  | .Four => true
  | .Unknown => true
  | _ => false

/-- Helper for `gesture.rs` fn direction_changes: walks the consecutive
pairs (`samples.windows(2)`) carrying the sign of the last significant
delta, skipping deltas below `min_step`. -/
def direction_changes_aux (min_step : ℚ) : List ℚ → Int → ℕ
  | [], _ => 0
  | [_], _ => 0
  | x :: y :: rest, last =>
    let d := y - x
    if |d| < min_step then direction_changes_aux min_step (y :: rest) last
    else
      let s : Int := if d > 0 then 1 else -1
      (if last ≠ 0 ∧ s ≠ last then 1 else 0) + direction_changes_aux min_step (y :: rest) s

/-- `gesture.rs`: fn direction_changes (the selector is applied by the
caller, so this takes the already-selected coordinate list). -/
def direction_changes (xs : List ℚ) (min_step : ℚ) : ℕ :=
  direction_changes_aux min_step xs 0

/-- `gesture.rs`: MotionTracker::update.  The tracker state (the `history`
VecDeque) is passed and returned explicitly: push_back the new sample,
evict while the front is older than the window, then classify. -/
def MotionTracker.update (history : List MotionSample) (pt : P2) (span : ℚ)
    (now : ℚ) (primary : GestureKind) : GestureMotion × List MotionSample :=
  let pushed := history ++ [⟨now, pt.1, pt.2, max span 1⟩]
  let hist := pushed.dropWhile (fun s => decide (durSince now s.time > MOTION_WINDOW))
  if hist.length < 3 then (GestureMotion.Steady, hist)
  else
    let avg_span := (hist.map (fun s => s.span)).sum / (hist.length : ℚ)
    let norm := max avg_span 1
    let bb := hist.foldl
      (fun acc s =>
        (min acc.1 s.x, max acc.2.1 s.x, min acc.2.2.1 s.y, max acc.2.2.2 s.y))
      (f32MAX, -f32MAX, f32MAX, -f32MAX)
    let span_x := (bb.2.1 - bb.1) / norm
    let span_y := (bb.2.2.2 - bb.2.2.1) / norm
    let dcx := direction_changes (hist.map (fun s => s.x)) (norm * 0.08)
    let dcy := direction_changes (hist.map (fun s => s.y)) (norm * 0.08)
    let motion :=
      if span_x > 0.55 ∧ 2 ≤ dcx ∧ is_open_palm_kind primary then GestureMotion.Fanning
      else if span_y > 0.55 ∧ 2 ≤ dcy then GestureMotion.VerticalWave
      else if span_x > 0.25 ∨ span_y > 0.25 then GestureMotion.Moving
      else GestureMotion.Steady
    (motion, hist)

/-- `types.rs`: struct GestureDetail. -/
structure GestureDetail where
  primary : GestureKind
  secondary : Option GestureKind
  handedness : Handedness
  finger_states : Fin 5 → FingerState
  motion : GestureMotion

/-- `gesture.rs`: GestureClassifier::classify.  The classifier's only state
is its MotionTracker history, threaded explicitly; early returns leave it
untouched (the source returns before calling `update`). -/
def GestureClassifier.classify (st : List MotionSample) (raw_landmarks : List P3)
    (projected_landmarks : List P2) (confidence handedness_score now : ℚ) :
    Option GestureDetail × List MotionSample :=
  if confidence < MIN_CONFIDENCE then (none, st)
  else if raw_landmarks.length < 21 ∨ projected_landmarks.length < 21 then (none, st)
  else
    let normalized := (normalize_landmarks raw_landmarks).1
    let wrist_px := projected_landmarks.getD 0 (0, 0)
    let span_px := projected_span projected_landmarks
    let finger_states : Fin 5 → FingerState :=
      ![classify_thumb normalized,
        classify_finger normalized 5 6 7 8,
        classify_finger normalized 9 10 11 12,
        classify_finger normalized 13 14 15 16,
        classify_finger normalized 17 18 19 20]
    let handedness := handedness_from_score handedness_score
    let primary := detect_primary_gesture normalized finger_states
    let secondary := detect_secondary finger_states normalized primary
    let upd := MotionTracker.update st wrist_px span_px now primary
    (some ⟨primary, secondary, handedness, finger_states, upd.1⟩, upd.2)

/-- `types.rs`: struct Frame (the pixel buffer is opaque data here). -/
structure Frame where
  rgba : List ℕ
  width : ℕ
  height : ℕ
  timestamp : ℚ

/-- `types.rs`: struct PalmRegion. -/
structure PalmRegion where
  bbox : ℚ × ℚ × ℚ × ℚ
  landmarks : List P2
  score : ℚ

/-- `pipeline/recognizer/common.rs` HandposeOutput, as used by
`build_gesture_result` and `OrtEngine::infer`. -/
structure HandposeOutput where
  raw_landmarks : List P3
  projected_landmarks : List P2
  confidence : ℚ
  handedness : ℚ
  palm_regions : List PalmRegion

/-- `types.rs`: struct GestureResult. -/
structure GestureResult where
  label : String
  confidence : ℚ
  timestamp : ℚ
  landmarks : Option (List P2)
  detail : Option GestureDetail
  palm_regions : List PalmRegion

/-- `pipeline/recognizer/mod.rs`: fn build_gesture_result (the classifier's
motion state is threaded explicitly, as in `classify`). -/
def build_gesture_result (output : HandposeOutput) (frame : Frame)
    (st : List MotionSample) : GestureResult × List MotionSample :=
  let has_detection : Bool := decide (output.confidence ≥ 0.2)
  let cls :=
    if has_detection then
      GestureClassifier.classify st output.raw_landmarks output.projected_landmarks
        output.confidence output.handedness frame.timestamp
    else (none, st)
  let label :=
    match cls.1 with
    | some d => GestureKind.emoji d.primary ++ GestureKind.display_name d.primary
    | none => if has_detection then "检测到手" else "未检测到手"
  ({ label := label
     confidence := output.confidence
     timestamp := frame.timestamp
     landmarks := if has_detection then some output.projected_landmarks else none
     detail := cls.1
     palm_regions := output.palm_regions }, cls.2)

/-- Modelled from the spec: struct CropTransform of
`pipeline/recognizer/common.rs`, whose file is absent from the sources —
"center point, side length, rotation angle (radians)" (spec section 3). -/
structure CropTransform where
  center : P2
  side : ℚ
  angle : ℚ
deriving DecidableEq, Repr

/-- `pipeline/recognizer/ort.rs`: const TRACK_MAX_AGE (450 ms). -/
def TRACK_MAX_AGE : ℚ := 0.45

/-- `pipeline/recognizer/ort.rs`: const TRACK_MIN_CONF. -/
def TRACK_MIN_CONF : ℚ := 0.15

/-- `pipeline/recognizer/ort.rs`: struct TrackedHand. -/
structure TrackedHand where
  transform : CropTransform
  projected : List P2
  confidence : ℚ
  last_seen : ℚ

/-- `pipeline/recognizer/ort.rs`: TrackedHand::is_stale. -/
def TrackedHand.is_stale (t : TrackedHand) (now : ℚ) : Bool :=
  decide (durSince now t.last_seen > TRACK_MAX_AGE) || decide (t.confidence < TRACK_MIN_CONF)

/-- The `is_finite` guard of `TrackedHand::estimate_roi`.  Rationals have no
NaN or infinity, so the guard is identically true in this model; it is kept
so the control flow matches the source. -/
def qIsFinite (_q : ℚ) : Bool := true

/-- Bounding-box fold shared by `TrackedHand::estimate_roi` (same sentinel
initialisation as the source fold): (min_x, max_x, min_y, max_y). -/
def bbox2 (points : List P2) : ℚ × ℚ × ℚ × ℚ :=
  points.foldl
    (fun acc p => (min acc.1 p.1, max acc.2.1 p.1, min acc.2.2.1 p.2, max acc.2.2.2 p.2))
    (f32MAX, -f32MAX, f32MAX, -f32MAX)

/-- `pipeline/recognizer/ort.rs`: fn estimate_orientation_from_landmarks. -/
def estimate_orientation_from_landmarks (points : List P2) : Option ℚ :=
  if points.length ≤ 17 then none
  else
    let wrist := nth2 points 0
    let index := nth2 points 5
    let pinky := nth2 points 17
    let axis_x := (index.1 + pinky.1) * 0.5 - wrist.1
    let axis_y := (index.2 + pinky.2) * 0.5 - wrist.2
    if |axis_x| < f32EPS ∧ |axis_y| < f32EPS then none
    else
      let radians := f32PI / 2 - f32atan2 (-axis_y) axis_x
      let two_pi := 2 * f32PI
      some (radians - two_pi * ⌊(radians + f32PI) / two_pi⌋)

/-- `pipeline/recognizer/ort.rs`: TrackedHand::estimate_roi. -/
def TrackedHand.estimate_roi (t : TrackedHand) : Option (P2 × ℚ × ℚ) :=
  if t.projected.length < 3 then none
  else
    let bb := bbox2 t.projected
    if !(qIsFinite bb.1 && qIsFinite bb.2.1 && qIsFinite bb.2.2.1 && qIsFinite bb.2.2.2)
    then none
    else
      let span := max (max (bb.2.1 - bb.1) (bb.2.2.2 - bb.2.2.1)) 1
      let expanded := span * 1.8
      let side := max (min (max expanded (t.transform.side * 0.7)) (t.transform.side * 2.5)) 80
      let center : P2 := ((bb.1 + bb.2.1) * 0.5, (bb.2.2.1 + bb.2.2.2) * 0.5)
      let angle := (estimate_orientation_from_landmarks t.projected).getD t.transform.angle
      some (center, side, angle)

/-- `pipeline/recognizer/ort.rs`: struct HandTracker (single slot). -/
structure HandTracker where
  last : Option TrackedHand

/-- `pipeline/recognizer/ort.rs`: HandTracker::update — full replace on a
non-empty projected set, clear on an empty one. -/
def HandTracker.update (_h : HandTracker) (transform : CropTransform)
    (projected : List P2) (confidence now : ℚ) : HandTracker :=
  if projected.isEmpty then ⟨none⟩
  else ⟨some ⟨transform, projected, confidence, now⟩⟩

/-- `pipeline/recognizer/ort.rs`: HandTracker::estimate_roi. -/
def HandTracker.estimate_roi (h : HandTracker) (now : ℚ) :
    Option ((P2 × ℚ × ℚ) × ℚ) :=
  match h.last with
  | none => none
  | some tracked =>
    if tracked.is_stale now then none
    else (tracked.estimate_roi).map (fun roi => (roi, tracked.confidence))

/-- `pipeline/recognizer/ort.rs`, OrtEngine::infer lines 158-161: the
effective confidence — model confidence times the originating region's
score, clamped to [0,1], then damped by 0.9 on the tracker fallback path. -/
def infer_confidence (model_conf prior_score : ℚ) (used_tracking_fallback : Bool) : ℚ :=
  let c := clampQ (model_conf * prior_score) 0 1
  if used_tracking_fallback then c * 0.9 else c

/-- The confidence delivered by one `OrtEngine::infer` cycle as a function
of which crop source fired: a primary palm region (score `s`), else the
tracker fallback (score `s`), else no hand at all (confidence 0.0). -/
def infer_confidence_of_cycle (palm tracker : Option ℚ) (model_conf : ℚ) : ℚ :=
  match palm with
  | some s => infer_confidence model_conf s false
  | none =>
    match tracker with
    | some s => infer_confidence model_conf s true
    | none => 0

/-- `pipeline/compositor.rs`: fn adjust_interval (times in seconds). -/
def adjust_interval (current compose_time min_interval max_interval : ℚ)
    (dropped_frame : Bool) : ℚ :=
  if dropped_frame ∧ current < max_interval then
    min (current * 1.25) max_interval
  else if compose_time > current ∧ current < max_interval then
    min (compose_time * 1.25) max_interval
  else if compose_time * 1.5 < current ∧ current > min_interval then
    max (current * 0.85) min_interval
  else current

/-- `pipeline/compositor.rs`: `Duration::from_millis(1000 / MAX_COMPOSITED_FPS)`
(integer millisecond division, as in `compositor_loop`), in seconds. -/
def compositor_min_interval : ℚ := ((1000 / 30 : ℕ) : ℚ) / 1000

/-- `pipeline/compositor.rs`: `Duration::from_millis(1000 / MIN_COMPOSITED_FPS)`
in seconds. -/
def compositor_max_interval : ℚ := ((1000 / 12 : ℕ) : ℚ) / 1000

/-- The interval trajectory of `compositor_loop`: fold `adjust_interval`
over a list of (compose_time, dropped_frame) cycles, starting from the
given interval (the loop starts from `min_interval`). -/
def compositor_intervals (min_interval max_interval : ℚ) (start : ℚ)
    (cycles : List (ℚ × Bool)) : ℚ :=
  cycles.foldl (fun acc c => adjust_interval acc c.1 min_interval max_interval c.2) start

/-- The expanded-ROI base span of `TrackedHand::estimate_roi`:
`(max_x - min_x).max(max_y - min_y).max(1.0)` over the stored projected
landmarks. -/
def roiSpan (pts : List P2) : ℚ :=
  max (max ((bbox2 pts).2.1 - (bbox2 pts).1) ((bbox2 pts).2.2.2 - (bbox2 pts).2.2.1)) 1

/-- C1: detect_primary_gesture returns the gesture of the first true predicate in
the fixed priority order finger-heart > pinch (index or middle) > ok-like >
I-love-you > rock > victory > point > thumb-up > thumb-down > fist > four >
open-palm > three, and Unknown when no predicate is true; in particular,
whenever two predicates hold simultaneously the higher-priority one wins. -/
theorem detect_primary_gesture_priority (points : List P3) (fs : Fin 5 → FingerState) :
    detect_primary_gesture points fs = firstTrue (priorityTable points fs) := rfl

/-- C7: handedness_from_score is a pure step function of the score: exactly 0
maps to Unknown, any score strictly between 0 and 0.5 maps to Left, and any
score at or above 0.5 maps to Right (so 0.0 gives Unknown, 0.3 gives Left,
0.5 and 1.0 give Right), with no dependence on prior calls. -/
theorem handedness_step :
    handedness_from_score 0 = Handedness.Unknown
    ∧ (∀ s : ℚ, 0 < s → s < 0.5 → handedness_from_score s = Handedness.Left)
    ∧ (∀ s : ℚ, 0.5 ≤ s → handedness_from_score s = Handedness.Right)
    ∧ handedness_from_score 0.3 = Handedness.Left
    ∧ handedness_from_score 1 = Handedness.Right := by
  have hleft : ∀ s : ℚ, 0 < s → s < 0.5 → handedness_from_score s = Handedness.Left := by
    intro s h0 h5
    unfold handedness_from_score
    rw [if_neg (not_le.mpr h5), if_pos h0]
  have hright : ∀ s : ℚ, 0.5 ≤ s → handedness_from_score s = Handedness.Right := by
    intro s h5
    unfold handedness_from_score
    rw [if_pos h5]
  refine ⟨?_, hleft, hright, hleft 0.3 (by norm_num) (by norm_num), hright 1 (by norm_num)⟩
  unfold handedness_from_score
  rw [if_neg (by norm_num), if_neg (by norm_num)]

/-- Witness for C7: the mapping evaluated at the spec's sample scores. -/
theorem handedness_step_witness :
    (0:ℚ) < 0.3 ∧ (0.3:ℚ) < 0.5 ∧ (0.5:ℚ) ≤ 0.5
    ∧ handedness_from_score 0.3 = Handedness.Left
    ∧ handedness_from_score 0.5 = Handedness.Right :=
  ⟨by norm_num, by norm_num, by norm_num,
   handedness_step.2.1 0.3 (by norm_num) (by norm_num),
   handedness_step.2.2.1 0.5 (by norm_num)⟩

/-- C2: for every input with fewer than 21 raw landmarks or fewer than 21
projected landmarks, GestureClassifier::classify returns None, for every
confidence value (including confidence at or above the 0.2 floor). -/
theorem classify_short_input_none (st : List MotionSample) (raw : List P3)
    (proj : List P2) (conf hs now : ℚ)
    (h : raw.length < 21 ∨ proj.length < 21) :
    (GestureClassifier.classify st raw proj conf hs now).1 = none := by
  unfold GestureClassifier.classify
  split_ifs with h1
  · rfl
  · rfl

/-- Witness for C2: an empty raw landmark list with full confidence yields no detail. -/
theorem classify_short_input_none_witness :
    ([] : List P3).length < 21
    ∧ (GestureClassifier.classify [] [] [(0, 0)] 1 0 0).1 = none :=
  ⟨by norm_num,
   classify_short_input_none [] [] [(0, 0)] 1 0 0 (Or.inl (by norm_num))⟩

/-- C3: the classification confidence floor is an inclusive lower bound at 0.2:
at confidence exactly 0.2 with at least 21 landmarks classify returns Some
detail, strictly below 0.2 it returns None; correspondingly
build_gesture_result treats confidence at or above 0.2 as a detection
(landmarks published, detail from the classifier) and below 0.2 as no hand
(no detail, no landmarks). -/
theorem classify_confidence_floor :
    (∀ st (raw : List P3) (proj : List P2) (hs now : ℚ),
        21 ≤ raw.length → 21 ≤ proj.length →
        ((GestureClassifier.classify st raw proj 0.2 hs now).1).isSome = true)
    ∧ (∀ st (raw : List P3) (proj : List P2) (conf hs now : ℚ), conf < 0.2 →
        (GestureClassifier.classify st raw proj conf hs now).1 = none)
    ∧ (∀ out frame st, out.confidence < 0.2 →
        (build_gesture_result out frame st).1.detail = none
        ∧ (build_gesture_result out frame st).1.landmarks = none)
    ∧ (∀ out frame st, 0.2 ≤ out.confidence →
        (build_gesture_result out frame st).1.landmarks = some out.projected_landmarks
        ∧ (build_gesture_result out frame st).1.detail =
            (GestureClassifier.classify st out.raw_landmarks out.projected_landmarks
              out.confidence out.handedness frame.timestamp).1) := by
  refine ⟨?_, ?_, ?_, ?_⟩
  · intro st raw proj hs now hr hp
    unfold GestureClassifier.classify
    split_ifs with h1 h2
    · exact absurd h1 (by norm_num [MIN_CONFIDENCE])
    · rcases h2 with h | h <;> omega
    · rfl
  · intro st raw proj conf hs now h
    unfold GestureClassifier.classify
    split_ifs with h1 h2
    · rfl
    · rfl
    · exact absurd h (by simpa [MIN_CONFIDENCE] using h1)
  · intro out frame st h
    have hd : (decide (out.confidence ≥ (0.2:ℚ))) = false := decide_eq_false (not_le.mpr h)
    constructor <;> simp [build_gesture_result, hd]
  · intro out frame st h
    have hd : (decide (out.confidence ≥ (0.2:ℚ))) = true := decide_eq_true h
    constructor <;> simp [build_gesture_result, hd]

/-- Witness for C3: 21 zero landmarks at confidence exactly 0.2 yield Some detail. -/
theorem classify_confidence_floor_witness :
    21 ≤ (List.replicate 21 ((0:ℚ), (0:ℚ), (0:ℚ))).length
    ∧ 21 ≤ (List.replicate 21 ((0:ℚ), (0:ℚ))).length
    ∧ ((GestureClassifier.classify [] (List.replicate 21 (0, 0, 0))
          (List.replicate 21 (0, 0)) 0.2 0 0).1).isSome = true :=
  ⟨by simp, by simp,
   classify_confidence_floor.1 [] (List.replicate 21 (0, 0, 0))
     (List.replicate 21 (0, 0)) 0 0 (by simp) (by simp)⟩

/-- Unfolding lemma: HandTracker::estimate_roi on an occupied slot. -/
lemma handTracker_estimate_roi_some (t : TrackedHand) (now : ℚ) :
    HandTracker.estimate_roi ⟨some t⟩ now =
      if t.is_stale now then none
      else (t.estimate_roi).map (fun roi => (roi, t.confidence)) := rfl

/-- With at least 3 stored points, TrackedHand::estimate_roi produces a region. -/
lemma trackedHand_estimate_roi_of_len (t : TrackedHand)
    (h : ¬ t.projected.length < 3) : ∃ v, t.estimate_roi = some v := by
  unfold TrackedHand.estimate_roi
  rw [if_neg h]
  exact ⟨_, rfl⟩

/-- C4 (amended): the staleness boundary of HandTracker::estimate_roi is
exclusive: a read strictly after the 450 ms threshold returns empty, while a
read at or before the threshold — with confidence at or above the floor and
at least 3 stored points — returns a region. -/
theorem estimate_roi_staleness_boundary (t : TrackedHand) (now : ℚ) :
    (TRACK_MAX_AGE < durSince now t.last_seen →
      HandTracker.estimate_roi ⟨some t⟩ now = none)
    ∧ (durSince now t.last_seen ≤ TRACK_MAX_AGE → TRACK_MIN_CONF ≤ t.confidence →
        3 ≤ t.projected.length →
        (HandTracker.estimate_roi ⟨some t⟩ now).isSome = true) := by
  constructor
  · intro h
    have hstale : t.is_stale now = true := by
      simp only [TrackedHand.is_stale, Bool.or_eq_true, decide_eq_true_eq]
      exact Or.inl h
    rw [handTracker_estimate_roi_some, hstale]
    rfl
  · intro hage hconf hlen
    have hstale : t.is_stale now = false := by
      simp only [TrackedHand.is_stale, Bool.or_eq_false_iff, decide_eq_false_iff_not]
      exact ⟨not_lt.mpr hage, not_lt.mpr hconf⟩
    rw [handTracker_estimate_roi_some, hstale]
    simp only [Bool.false_eq_true, if_false]
    obtain ⟨v, hv⟩ := trackedHand_estimate_roi_of_len t (not_lt.mpr hlen)
    rw [hv]
    rfl

/-- Witness for C4: a 3-point tracked hand read at age 400 ms (before the 450 ms threshold) returns a region. -/
theorem estimate_roi_staleness_boundary_witness :
    durSince 0.4 0 ≤ TRACK_MAX_AGE ∧ (TRACK_MIN_CONF:ℚ) ≤ 1
    ∧ 3 ≤ ([((0:ℚ),(0:ℚ)), (10,0), (0,10)]).length
    ∧ (HandTracker.estimate_roi
        ⟨some ⟨⟨(0,0), 100, 0⟩, [(0,0), (10,0), (0,10)], 1, 0⟩⟩ 0.4).isSome = true :=
  ⟨by norm_num [durSince, TRACK_MAX_AGE], by norm_num [TRACK_MIN_CONF], by norm_num,
   (estimate_roi_staleness_boundary ⟨⟨(0,0), 100, 0⟩, [(0,0), (10,0), (0,10)], 1, 0⟩ 0.4).2
     (by norm_num [durSince, TRACK_MAX_AGE]) (by norm_num [TRACK_MIN_CONF]) (by norm_num)⟩

/-- C4 counterexample: a tracked hand read at a time whose elapsed age equals
the staleness threshold exactly still returns a region, refuting the claim
that such a read returns empty. -/
theorem estimate_roi_at_exact_threshold_returns_region :
    durSince 0.45 (0:ℚ) = TRACK_MAX_AGE
    ∧ (HandTracker.estimate_roi
        ⟨some ⟨⟨(0,0), 100, 0⟩, [(0,0), (10,0), (0,10)], 1, 0⟩⟩ 0.45).isSome = true := by
  constructor
  · norm_num [durSince, TRACK_MAX_AGE]
  · rw [handTracker_estimate_roi_some]
    have hstale : TrackedHand.is_stale ⟨⟨(0,0), 100, 0⟩, [(0,0), (10,0), (0,10)], 1, 0⟩ 0.45 = false := by
      simp only [TrackedHand.is_stale, Bool.or_eq_false_iff, decide_eq_false_iff_not]
      norm_num [durSince, TRACK_MAX_AGE, TRACK_MIN_CONF]
    rw [hstale]
    simp only [Bool.false_eq_true, if_false]
    obtain ⟨v, hv⟩ := trackedHand_estimate_roi_of_len
      ⟨⟨(0,0), 100, 0⟩, [(0,0), (10,0), (0,10)], 1, 0⟩ (by norm_num)
    rw [hv]
    rfl

/-- C6 (amended): a projected landmark set with at least 3 points stored via
HandTracker::update and read back via estimate_roi before the staleness
window elapses (confidence at or above the floor) yields a region whose
center is the bounding-box midpoint of those same landmarks and whose side
is at least min(1.8 * bounding-box span, 2.5 * prior crop side). -/
theorem tracker_roundtrip_bbox (h0 : HandTracker) (tr : CropTransform) (pts : List P2)
    (conf t now : ℚ) (h3 : 3 ≤ pts.length) (hage : durSince now t ≤ TRACK_MAX_AGE)
    (hconf : TRACK_MIN_CONF ≤ conf) :
    ∃ side angle,
      HandTracker.estimate_roi (HandTracker.update h0 tr pts conf t) now =
        some (((((bbox2 pts).1 + (bbox2 pts).2.1) * 0.5,
                ((bbox2 pts).2.2.1 + (bbox2 pts).2.2.2) * 0.5),
               side, angle), conf)
      ∧ min (roiSpan pts * 1.8) (tr.side * 2.5) ≤ side := by
  have hne : pts.isEmpty = false := by
    cases pts with
    | nil => simp at h3
    | cons a l => rfl
  have hupd : HandTracker.update h0 tr pts conf t = ⟨some ⟨tr, pts, conf, t⟩⟩ := by
    unfold HandTracker.update
    rw [hne]
    rfl
  rw [hupd, handTracker_estimate_roi_some]
  have hstale : TrackedHand.is_stale ⟨tr, pts, conf, t⟩ now = false := by
    simp only [TrackedHand.is_stale, Bool.or_eq_false_iff, decide_eq_false_iff_not]
    exact ⟨not_lt.mpr hage, not_lt.mpr hconf⟩
  rw [hstale]
  simp only [Bool.false_eq_true, if_false]
  have hroi : TrackedHand.estimate_roi ⟨tr, pts, conf, t⟩ =
      some ((((bbox2 pts).1 + (bbox2 pts).2.1) * 0.5,
             ((bbox2 pts).2.2.1 + (bbox2 pts).2.2.2) * 0.5),
            max (min (max (roiSpan pts * 1.8) (tr.side * 0.7)) (tr.side * 2.5)) 80,
            (estimate_orientation_from_landmarks pts).getD tr.angle) := by
    unfold TrackedHand.estimate_roi
    rw [if_neg (not_lt.mpr h3)]
    rfl
  rw [hroi]
  refine ⟨_, _, rfl, ?_⟩
  exact le_trans (min_le_min (le_max_left _ _) le_rfl) (le_max_left _ _)

/-- Witness for C6: a concrete 3-point set stored and read back immediately returns the bounding-box-derived region. -/
theorem tracker_roundtrip_bbox_witness :
    3 ≤ ([((0:ℚ),(0:ℚ)), (10,0), (0,10)]).length
    ∧ durSince 0 0 ≤ TRACK_MAX_AGE ∧ (TRACK_MIN_CONF:ℚ) ≤ 1
    ∧ ∃ side angle,
        HandTracker.estimate_roi
            (HandTracker.update ⟨none⟩ ⟨(0,0), 100, 0⟩ [(0,0), (10,0), (0,10)] 1 0) 0 =
          some (((((bbox2 [(0,0), (10,0), (0,10)]).1 + (bbox2 [(0,0), (10,0), (0,10)]).2.1) * 0.5,
                  ((bbox2 [(0,0), (10,0), (0,10)]).2.2.1 + (bbox2 [(0,0), (10,0), (0,10)]).2.2.2) * 0.5),
                 side, angle), 1)
        ∧ min (roiSpan [(0,0), (10,0), (0,10)] * 1.8) ((100:ℚ) * 2.5) ≤ side :=
  ⟨by norm_num, by norm_num [durSince, TRACK_MAX_AGE], by norm_num [TRACK_MIN_CONF],
   tracker_roundtrip_bbox ⟨none⟩ ⟨(0,0), 100, 0⟩ [(0,0), (10,0), (0,10)] 1 0 0
     (by norm_num) (by norm_num [durSince, TRACK_MAX_AGE]) (by norm_num [TRACK_MIN_CONF])⟩

/-- C6 counterexample: storing three landmarks spanning 200 with a prior crop
side of 100 yields a region of side 250, strictly below the expanded span
1.8 * 200 = 360, refuting the claim that the returned side is always at
least the expanded span (the 2.5 * prior-side clamp wins). -/
theorem tracker_roi_side_below_expanded_span :
    HandTracker.estimate_roi
        (HandTracker.update ⟨none⟩ ⟨(0,0), 100, 0⟩ [(0,0), (200,0), (0,200)] 1 0) 0
      = some (((100, 100), 250, 0), 1)
    ∧ roiSpan [(0,0), (200,0), (0,200)] = 200
    ∧ ¬ ((1.8:ℚ) * 200 ≤ 250) := by
  have hbb : bbox2 [((0:ℚ),(0:ℚ)), (200,0), (0,200)] = (0, 200, 0, 200) := by
    unfold bbox2
    simp only [List.foldl]
    norm_num [f32MAX, min_def, max_def]
  refine ⟨?_, ?_, by norm_num⟩
  · rw [show HandTracker.update ⟨none⟩ ⟨(0,0), 100, 0⟩ [(0,0), (200,0), (0,200)] 1 0 =
        ⟨some ⟨⟨(0,0), 100, 0⟩, [(0,0), (200,0), (0,200)], 1, 0⟩⟩ from rfl,
      handTracker_estimate_roi_some]
    have hstale : TrackedHand.is_stale
        ⟨⟨(0,0), 100, 0⟩, [(0,0), (200,0), (0,200)], 1, 0⟩ 0 = false := by
      simp only [TrackedHand.is_stale, Bool.or_eq_false_iff, decide_eq_false_iff_not]
      norm_num [durSince, TRACK_MAX_AGE, TRACK_MIN_CONF]
    rw [hstale]
    simp only [Bool.false_eq_true, if_false]
    unfold TrackedHand.estimate_roi
    rw [if_neg (by norm_num)]
    simp only [qIsFinite, Bool.and_self, Bool.not_true, Bool.false_eq_true, if_false, hbb]
    norm_num [estimate_orientation_from_landmarks, min_def, max_def]
  · rw [roiSpan, hbb]
    norm_num

/-- Clamping to [0,1] lands in [0,1]. -/
lemma clampQ_unit_bounds (x : ℚ) : 0 ≤ clampQ x 0 1 ∧ clampQ x 0 1 ≤ 1 :=
  ⟨le_min (le_max_right x 0) (by norm_num), min_le_right _ _⟩

/-- C8: the effective confidence of an inference cycle equals the intrinsic
model confidence times the originating region's detection score clamped to
[0,1]; on the tracker fallback path the fixed damping factor 0.9 < 1 is
additionally applied; and the confidence delivered downstream always lies in
[0,1] (the no-region branch delivers 0). -/
theorem infer_confidence_spec (mc p : ℚ) :
    (∀ fb, 0 ≤ infer_confidence mc p fb ∧ infer_confidence mc p fb ≤ 1)
    ∧ infer_confidence mc p false = clampQ (mc * p) 0 1
    ∧ infer_confidence mc p true = clampQ (mc * p) 0 1 * 0.9
    ∧ infer_confidence mc p true = infer_confidence mc p false * 0.9
    ∧ (0.9:ℚ) < 1
    ∧ infer_confidence_of_cycle (some p) none mc = clampQ (mc * p) 0 1
    ∧ infer_confidence_of_cycle none (some p) mc = clampQ (mc * p) 0 1 * 0.9
    ∧ infer_confidence_of_cycle none none mc = 0
    ∧ (∀ palm tracker, 0 ≤ infer_confidence_of_cycle palm tracker mc
        ∧ infer_confidence_of_cycle palm tracker mc ≤ 1) := by
  have hb : ∀ s : ℚ, ∀ fb, 0 ≤ infer_confidence mc s fb ∧ infer_confidence mc s fb ≤ 1 := by
    intro s fb
    obtain ⟨h0, h1⟩ := clampQ_unit_bounds (mc * s)
    cases fb with
    | false => exact ⟨h0, h1⟩
    | true =>
      constructor
      · show 0 ≤ clampQ (mc * s) 0 1 * 0.9
        nlinarith
      · show clampQ (mc * s) 0 1 * 0.9 ≤ 1
        nlinarith
  refine ⟨hb p, rfl, rfl, rfl, by norm_num, rfl, rfl, rfl, ?_⟩
  intro palm tracker
  cases palm with
  | some s => exact hb s false
  | none =>
    cases tracker with
    | some s => exact hb s true
    | none =>
      refine ⟨le_rfl, ?_⟩
      show (0:ℚ) ≤ 1
      norm_num

/-- A constant coordinate trace has no significant direction reversals. -/
lemma direction_changes_aux_const (c minStep : ℚ) (hpos : 0 < minStep) :
    ∀ l : List ℚ, (∀ v ∈ l, v = c) → ∀ last : Int,
      direction_changes_aux minStep l last = 0 := by
  intro l
  induction l with
  | nil => intro _ _; rfl
  | cons x tl ih =>
    intro hall last
    cases tl with
    | nil => rfl
    | cons y rest =>
      have hx : x = c := hall x (by simp)
      have hy : y = c := hall y (by simp)
      rw [direction_changes_aux]
      have hd : y - x = 0 := by rw [hx, hy]; ring
      simp only [hd, abs_zero]
      rw [if_pos hpos]
      exact ih (fun v hv => hall v (List.mem_cons_of_mem _ hv)) last

/-- C9: motion classification idempotence — feeding the motion tracker the
same wrist point repeatedly (formally: updating from any history whose
samples all carry that same point, with any scale) never yields Fanning or
VerticalWave, regardless of how many samples are in the window. -/
theorem motion_same_point (st : List MotionSample) (px py s now : ℚ) (prim : GestureKind)
    (hall : ∀ q ∈ st, q.x = px ∧ q.y = py) :
    (MotionTracker.update st (px, py) s now prim).1 ≠ GestureMotion.Fanning
    ∧ (MotionTracker.update st (px, py) s now prim).1 ≠ GestureMotion.VerticalWave := by
  unfold MotionTracker.update
  dsimp only
  set hist := (st ++ [({ time := now, x := px, y := py, span := max s 1 } : MotionSample)]).dropWhile
      (fun q => decide (durSince now q.time > MOTION_WINDOW)) with hhist
  have hmem : ∀ q ∈ hist, q.x = px ∧ q.y = py := by
    intro q hq
    have hq2 : q ∈ st ++ [({ time := now, x := px, y := py, span := max s 1 } : MotionSample)] := by
      rw [hhist] at hq
      exact (List.dropWhile_sublist _).subset hq
    rcases List.mem_append.mp hq2 with h | h
    · exact hall q h
    · rw [List.mem_singleton.mp h]
      exact ⟨rfl, rfl⟩
  set norm := max ((hist.map fun s => s.span).sum / (hist.length : ℚ)) 1 with hnorm
  have h1n : (1:ℚ) ≤ norm := le_max_right _ _
  have hstep : (0:ℚ) < norm * 0.08 := by nlinarith
  have hdcx : direction_changes (hist.map fun s => s.x) (norm * 0.08) = 0 := by
    unfold direction_changes
    refine direction_changes_aux_const px _ hstep _ ?_ 0
    intro v hv
    obtain ⟨q, hq, rfl⟩ := List.mem_map.mp hv
    exact (hmem q hq).1
  have hdcy : direction_changes (hist.map fun s => s.y) (norm * 0.08) = 0 := by
    unfold direction_changes
    refine direction_changes_aux_const py _ hstep _ ?_ 0
    intro v hv
    obtain ⟨q, hq, rfl⟩ := List.mem_map.mp hv
    exact (hmem q hq).2
  split_ifs with hlen hc1 hc2 hc3
  · exact ⟨by simp, by simp⟩
  · rw [hdcx] at hc1
    omega
  · rw [hdcy] at hc2
    omega
  · exact ⟨by simp, by simp⟩
  · exact ⟨by simp, by simp⟩

/-- Witness for C9: a two-sample history of the point (5, 5) updated with the same point is not classified as Fanning. -/
theorem motion_same_point_witness :
    (∀ q ∈ [(⟨0, 5, 5, 1⟩ : MotionSample), ⟨0.1, 5, 5, 1⟩], q.x = 5 ∧ q.y = 5)
    ∧ (MotionTracker.update [⟨0, 5, 5, 1⟩, ⟨0.1, 5, 5, 1⟩] (5, 5) 1 0.2 GestureKind.OpenPalm).1
        ≠ GestureMotion.Fanning :=
  ⟨by
    intro q hq
    rcases List.mem_cons.mp hq with rfl | hq2
    · exact ⟨rfl, rfl⟩
    · rw [List.mem_singleton.mp hq2]
      exact ⟨rfl, rfl⟩,
   (motion_same_point [⟨0, 5, 5, 1⟩, ⟨0.1, 5, 5, 1⟩] 5 5 1 0.2 GestureKind.OpenPalm
     (by
        intro q hq
        rcases List.mem_cons.mp hq with rfl | hq2
        · exact ⟨rfl, rfl⟩
        · rw [List.mem_singleton.mp hq2]
          exact ⟨rfl, rfl⟩)).1⟩

/-- adjust_interval never drops below the configured minimum. -/
lemma adjust_interval_lb (minI maxI cur c : ℚ) (d : Bool) (h0 : 0 ≤ minI)
    (hmm : minI ≤ maxI) (h1 : minI ≤ cur) :
    minI ≤ adjust_interval cur c minI maxI d := by
  unfold adjust_interval
  split_ifs with b1 b2 b3
  · exact le_min (by linarith) hmm
  · obtain ⟨hgt, _⟩ := b2
    exact le_min (by linarith) hmm
  · exact le_max_right _ _
  · exact h1

/-- adjust_interval never exceeds the configured maximum. -/
lemma adjust_interval_ub (minI maxI cur c : ℚ) (d : Bool) (h0 : 0 ≤ minI)
    (_h1 : minI ≤ cur) (h2 : cur ≤ maxI) :
    adjust_interval cur c minI maxI d ≤ maxI := by
  unfold adjust_interval
  split_ifs with b1 b2 b3
  · exact min_le_right _ _
  · exact min_le_right _ _
  · exact max_le (by linarith) (by linarith)
  · exact h2

/-- Any compositor cycle trajectory started in bounds stays in bounds. -/
lemma compositor_intervals_bounds (minI maxI : ℚ) (h0 : 0 ≤ minI) (hmm : minI ≤ maxI) :
    ∀ (cycles : List (ℚ × Bool)) (start : ℚ), minI ≤ start → start ≤ maxI →
      minI ≤ compositor_intervals minI maxI start cycles
      ∧ compositor_intervals minI maxI start cycles ≤ maxI := by
  intro cycles
  induction cycles with
  | nil => intro start hs1 hs2; exact ⟨hs1, hs2⟩
  | cons cyc rest ih =>
    intro start hs1 hs2
    have hstep1 := adjust_interval_lb minI maxI start cyc.1 cyc.2 h0 hmm hs1
    have hstep2 := adjust_interval_ub minI maxI start cyc.1 cyc.2 h0 hs1 hs2
    exact ih _ hstep1 hstep2

/-- C10: adjust_interval never leaves the configured bounds — for every
current interval in [min, max] and every compose time and backpressure flag
the result is again in [min, max]; hence the compositor's target interval,
initialised to the minimum, stays within bounds across every sequence of
cycles. -/
theorem adjust_interval_stays_in_bounds (minI maxI : ℚ) (h0 : 0 ≤ minI)
    (hmm : minI ≤ maxI) :
    (∀ (cur c : ℚ) (d : Bool), minI ≤ cur → cur ≤ maxI →
      minI ≤ adjust_interval cur c minI maxI d
      ∧ adjust_interval cur c minI maxI d ≤ maxI)
    ∧ ∀ cycles : List (ℚ × Bool),
      minI ≤ compositor_intervals minI maxI minI cycles
      ∧ compositor_intervals minI maxI minI cycles ≤ maxI := by
  constructor
  · intro cur c d hc1 hc2
    exact ⟨adjust_interval_lb minI maxI cur c d h0 hmm hc1,
           adjust_interval_ub minI maxI cur c d h0 hc1 hc2⟩
  · intro cycles
    exact compositor_intervals_bounds minI maxI h0 hmm cycles minI le_rfl hmm

/-- Witness for C10: one adjustment step from the compositor's own bounds stays within them. -/
theorem adjust_interval_stays_in_bounds_witness :
    (0:ℚ) ≤ compositor_min_interval
    ∧ compositor_min_interval ≤ compositor_max_interval
    ∧ (compositor_min_interval ≤
        adjust_interval compositor_min_interval 1 compositor_min_interval
          compositor_max_interval false
      ∧ adjust_interval compositor_min_interval 1 compositor_min_interval
          compositor_max_interval false ≤ compositor_max_interval) :=
  ⟨by norm_num [compositor_min_interval],
   by norm_num [compositor_min_interval, compositor_max_interval],
   (adjust_interval_stays_in_bounds compositor_min_interval compositor_max_interval
      (by norm_num [compositor_min_interval])
      (by norm_num [compositor_min_interval, compositor_max_interval])).1
     compositor_min_interval 1 false le_rfl
     (by norm_num [compositor_min_interval, compositor_max_interval])⟩

/-- C5: compositor cadence convergence for adjust_interval with no
backpressure: while the compose time exceeds the current interval the
interval strictly grows, capped at the configured maximum, and holds once at
the maximum; while the compose time is below the interval by the 1.5 margin
the interval strictly shrinks, floored at the configured minimum, and holds
once at the minimum; iterating with a compose time above the maximum reaches
the maximum and stays there, and iterating with a compose time well below
the minimum follows max(0.85 ^ n * start, min) — monotonically decreasing —
and reaches the minimum after finitely many cycles. -/
theorem adjust_interval_convergence (minI maxI cur c : ℚ)
    (h0 : 0 ≤ minI) (h1 : minI ≤ cur) (h2 : cur ≤ maxI) :
    (cur < maxI → cur < c →
        cur < adjust_interval cur c minI maxI false
        ∧ adjust_interval cur c minI maxI false ≤ maxI)
    ∧ (maxI < c → adjust_interval maxI c minI maxI false = maxI)
    ∧ (minI < cur → c * 1.5 < cur →
        adjust_interval cur c minI maxI false < cur
        ∧ minI ≤ adjust_interval cur c minI maxI false)
    ∧ (c * 1.5 < minI → adjust_interval minI c minI maxI false = minI)
    ∧ (maxI < c → ∀ n : ℕ, 1 ≤ n →
        (fun x => adjust_interval x c minI maxI false)^[n] cur = maxI)
    ∧ (c * 1.5 < minI → 0 < minI →
        (∀ n : ℕ, (fun x => adjust_interval x c minI maxI false)^[n] cur
            = max ((0.85:ℚ) ^ n * cur) minI)
        ∧ ∃ N : ℕ, (fun x => adjust_interval x c minI maxI false)^[N] cur = minI) := by
  have hgrow : ∀ x : ℚ, minI ≤ x → x < maxI → x < c →
      x < adjust_interval x c minI maxI false
      ∧ adjust_interval x c minI maxI false ≤ maxI := by
    intro x hx1 hx2 hx3
    unfold adjust_interval
    rw [if_neg (by simp), if_pos ⟨hx3, hx2⟩]
    exact ⟨lt_min (by linarith) hx2, min_le_right _ _⟩
  have hmaxfix : maxI < c → adjust_interval maxI c minI maxI false = maxI := by
    intro hc
    unfold adjust_interval
    rw [if_neg (by simp), if_neg (fun h => absurd h.2 (lt_irrefl maxI)),
      if_neg (fun h => by linarith [h.1, h.2])]
  have hshrink : ∀ x : ℚ, minI < x → c * 1.5 < x →
      adjust_interval x c minI maxI false = max (x * 0.85) minI := by
    intro x hx1 hx2
    unfold adjust_interval
    rw [if_neg (by simp), if_neg (fun h => by
        have hgt := h.1
        have hxpos : 0 < x := lt_of_le_of_lt h0 hx1
        linarith),
      if_pos ⟨hx2, hx1⟩]
  have hminfix : c * 1.5 < minI → adjust_interval minI c minI maxI false = minI := by
    intro hc
    unfold adjust_interval
    rw [if_neg (by simp), if_neg (fun h => by
        have hgt := h.1
        linarith),
      if_neg (fun h => absurd h.2 (lt_irrefl minI))]
  refine ⟨fun ha hb => hgrow cur h1 ha hb, hmaxfix, ?_, hminfix, ?_, ?_⟩
  · intro ha hb
    rw [hshrink cur ha hb]
    have hcpos : 0 < cur := lt_of_le_of_lt h0 ha
    exact ⟨max_lt (by linarith) ha, le_max_right _ _⟩
  · intro hc n hn
    induction n with
    | zero => omega
    | succ k ih =>
      rcases Nat.eq_or_lt_of_le hn with heq | hlt
      · rw [← heq]
        rw [Function.iterate_one]
        rcases lt_or_eq_of_le h2 with hcase | hcase
        · have := hgrow cur h1 hcase (lt_of_le_of_lt h2 hc)
          unfold adjust_interval
          rw [if_neg (by simp), if_pos ⟨lt_of_le_of_lt h2 hc, hcase⟩]
          have hcpos : 0 < c := lt_of_le_of_lt (le_trans h0 (le_trans h1 h2)) hc
          rw [min_eq_right (by linarith)]
        · rw [hcase]
          exact hmaxfix hc
      · have hk : 1 ≤ k := by omega
        rw [Function.iterate_succ_apply', ih hk]
        exact hmaxfix hc
  · intro hc hpos
    have hform : ∀ n : ℕ, (fun x => adjust_interval x c minI maxI false)^[n] cur
        = max ((0.85:ℚ) ^ n * cur) minI := by
      intro n
      induction n with
      | zero =>
        simp only [Function.iterate_zero, id_eq, pow_zero, one_mul]
        exact (max_eq_left h1).symm
      | succ k ih =>
        rw [Function.iterate_succ_apply', ih]
        rcases le_or_lt ((0.85:ℚ) ^ k * cur) minI with hk | hk
        · rw [max_eq_right hk, hminfix hc, eq_comm, max_eq_right]
          have h85 : (0.85:ℚ) ^ (k+1) * cur = 0.85 * ((0.85:ℚ) ^ k * cur) := by ring
          rw [h85]
          nlinarith
        · rw [max_eq_left (le_of_lt hk), hshrink _ hk (lt_trans hc hk)]
          congr 1
          ring
    refine ⟨hform, ?_⟩
    have hcurpos : 0 < cur := lt_of_lt_of_le hpos h1
    obtain ⟨N, hN⟩ := exists_pow_lt_of_lt_one (x := minI / cur) (y := (0.85:ℚ))
      (div_pos hpos hcurpos) (by norm_num)
    refine ⟨N, ?_⟩
    rw [hform N, max_eq_right (le_of_lt ((lt_div_iff₀ hcurpos).mp hN))]

/-- Witness for C5: with bounds [1, 2], start 1 and constant compose time 3 above the maximum, one cycle reaches the maximum interval 2. -/
theorem adjust_interval_convergence_witness :
    (0:ℚ) ≤ 1 ∧ (1:ℚ) ≤ 1 ∧ (1:ℚ) ≤ 2 ∧ (2:ℚ) < 3
    ∧ (fun x => adjust_interval x 3 1 2 false)^[1] 1 = 2 :=
  ⟨by norm_num, by norm_num, by norm_num, by norm_num,
   (adjust_interval_convergence 1 2 1 3 (by norm_num) (by norm_num)
      (by norm_num)).2.2.2.2.1 (by norm_num) 1 (by norm_num)⟩
